import Mathlib

/-!
Verification of the connection-lifecycle core of the
`polymarket-websocket-client` repository.

This is a shallow embedding of `src/base-client.ts` (the
`BaseWebSocketClient` state machine: connect/disconnect, connection
timeout, auto-reconnect scheduling, heartbeat) and `src/clob-client.ts`
(`ClobMarketClient` and `ClobUserClient`: the subscription ledgers, the
channel-specific `onConnected` replay and `onCleanup` teardown, and the
validated `subscribe`/`unsubscribe` operations).

The embedding turns the stateful TypeScript class into an explicit state
record `ClientState` plus a step function `step` over an event alphabet
`Ev` (caller API invocations, transport callbacks, timer callbacks).
Each step also returns the list of externally observable `Output`s in
the exact order the code produces them: published events, transport
constructions, sends and the promise resolution of `connect()`.
Time is abstracted away: a timer is a boolean "armed" flag and its
callback is an event that the environment may only deliver while the
flag is armed (in JS, `clearTimeout` guarantees a cancelled timer never
fires, and the single-threaded event loop makes each callback atomic).
-/

namespace PolyWS

/-- `ConnectionState` from `src/types.ts`:
`disconnected | connecting | connected | reconnecting`. -/
inductive ConnState
  | disconnected
  | connecting
  | connected
  | reconnecting
deriving DecidableEq, Repr

/-- The `readyState` phase of the WebSocket object currently held in
`this.ws`.  `none` models `this.ws === null`. -/
inductive WsPhase
  | connecting
  | opened
  | closed
deriving DecidableEq, Repr

/-- `ClobAuth` credentials (`src/types.ts`), carried by `ClobUserClient`. -/
structure ClobAuth where
  apiKey : String
  secret : String
  passphrase : String
deriving DecidableEq, Repr

/-- The resolved options of `BaseWebSocketClient` (constructor of
`src/base-client.ts`), plus the `auth` of a `ClobUserClient` instance.
`maxReconnectAttempts := none` models the default `Infinity`. -/
structure Config where
  autoReconnect : Bool
  maxReconnectAttempts : Option Nat
  reconnectDelay : Nat
  maxReconnectDelay : Nat
  heartbeatInterval : Nat
  connectionTimeout : Nat
  auth : ClobAuth
deriving DecidableEq, Repr

/-- The `DEFAULTS` object of `src/base-client.ts` (auth is only relevant
for the user channel). -/
def DEFAULTS : Config where
  autoReconnect := true
  maxReconnectAttempts := none
  reconnectDelay := 1000
  maxReconnectDelay := 30000
  heartbeatInterval := 30000
  connectionTimeout := 10000
  auth := ⟨"test-key", "test-secret", "test-pass"⟩

/-- Which concrete subclass of `BaseWebSocketClient` the instance is:
`ClobMarketClient` or `ClobUserClient` (`src/clob-client.ts`). -/
inductive ChannelKind
  | market
  | user
deriving DecidableEq, Repr

/-- The mutable fields of a client instance.

* `state`, `reconnectAttempts`, `isIntentionalClose`, the three timer
  flags and `ws` come from `BaseWebSocketClient`.
* `ledger` is the subscription ledger of the subclass: the `assetIds`
  set of `ClobMarketClient` or the `marketIds` set of `ClobUserClient`.
  A JS `Set` iterates in insertion order, so it is modelled as an
  insertion-ordered duplicate-free list.
* `eventCallbacks` abstracts the subclass `eventCallbacks` map: one
  entry (the event name) per registered callback.
* `BaseWebSocketClient.pendingSubscriptions` is omitted: no code in the
  repository ever pushes to it, so it is always the empty array. -/
structure ClientState where
  state : ConnState
  reconnectAttempts : Nat
  isIntentionalClose : Bool
  ws : Option WsPhase
  connectionTimer : Bool
  reconnectTimer : Bool
  heartbeatTimer : Bool
  ledger : List String
  eventCallbacks : List String
  /-- Abandoned sockets: `createConnection` assigns `this.ws` without
  detaching a still-live previous socket, so its handlers remain
  installed and keep firing against the shared instance state.  Each
  entry is the phase of one such socket (closed sockets fire nothing
  and are dropped). -/
  zombies : List WsPhase
  /-- Pending connection-timeout timers whose handle was overwritten by
  a later `this.connectionTimer = setTimeout(...)`: the code never
  clears the previous handle, so the old callback still fires and can
  no longer be cancelled. -/
  leakedConnTimers : Nat
  /-- Pending reconnect-delay timers whose handle was overwritten by a
  later `this.reconnectTimer = setTimeout(...)` in `scheduleReconnect`:
  never cleared, still fire, uncancellable — even by `disconnect()`. -/
  leakedReconnectTimers : Nat
deriving DecidableEq, Repr

/-- Field values at instance construction. -/
def initState : ClientState where
  state := ConnState.disconnected
  reconnectAttempts := 0
  isIntentionalClose := false
  ws := none
  connectionTimer := false
  reconnectTimer := false
  heartbeatTimer := false
  ledger := []
  eventCallbacks := []
  zombies := []
  leakedConnTimers := 0
  leakedReconnectTimers := 0

/-- Structured outbound payloads handed to `this.send`:
a raw string (`'ping'` heartbeats), the `ClobSubscribeMessage` of the
market channel (`type: 'MARKET'`), the incremental
`ClobAssetSubscriptionMessage`, or the authenticated
`ClobSubscribeMessage` of the user channel (`type: 'USER'`). -/
inductive OutMsg
  | text (s : String)
  | marketSub (assets : List String)
  | assetOp (operation : String) (assets : List String)
  | userSub (auth : ClobAuth) (markets : List String)
deriving DecidableEq, Repr

/-- Externally observable effects of one step, in program order:
events published through the `TypedEventEmitter`, transport
interactions, and the settlement of the pending `connect()` promise. -/
inductive Output
  | stateChange (state previousState : ConnState)
  | connectedEv
  | disconnectedEv (code : Nat) (reason : String)
  | reconnectingEv (attempt : Nat) (maxAttempts : Option Nat)
  | errorEv (msg : String)
  | wsNew
  | wsSend (m : OutMsg)
  | wsCloseCall
  | resolveConnect
  | rejectConnect (msg : String)
deriving DecidableEq, Repr

/-! ### JSON serialization (`send`, line 106 of `src/base-client.ts`)

`this.ws.send(typeof data === 'string' ? data : JSON.stringify(data))`.
The messages of this repository are flat objects whose values are
strings, arrays of strings, or one nested all-string object (`auth`),
so `JSON.stringify` is modelled for exactly those shapes.  Property
order follows the object-literal order in `src/clob-client.ts`. -/

/-- `JSON.stringify` escaping for one character (quote, backslash and
the common control characters; other characters are emitted as-is). -/
def escChar (c : Char) : String :=
  if c = '"' then "\\\""
  else if c = '\\' then "\\\\"
  else if c = '\n' then "\\n"
  else if c = '\r' then "\\r"
  else if c = '\t' then "\\t"
  else String.singleton c

/-- A JSON string literal. -/
def jsonQuote (s : String) : String :=
  "\"" ++ String.join (s.data.map escChar) ++ "\""

/-- A JSON array of string literals. -/
def jsonStrArray (xs : List String) : String :=
  "[" ++ String.intercalate "," (xs.map jsonQuote) ++ "]"

/-- A flat JSON value as occurring in this repository's messages. -/
inductive JsonFlat
  | str (s : String)
  | strArr (xs : List String)
  | objStr (fields : List (String × String))
deriving DecidableEq, Repr

/-- Rendering of a flat JSON value. -/
def JsonFlat.render : JsonFlat → String
  | .str s => jsonQuote s
  | .strArr xs => jsonStrArray xs
  | .objStr fields =>
      "\x7b" ++
        String.intercalate ","
          (fields.map (fun f => jsonQuote f.1 ++ ":" ++ jsonQuote f.2)) ++
      "\x7d"

/-- Rendering of a JSON object with flat values. -/
def renderObj (fields : List (String × JsonFlat)) : String :=
  "\x7b" ++
    String.intercalate ","
      (fields.map (fun f => jsonQuote f.1 ++ ":" ++ f.2.render)) ++
  "\x7d"

/-- The JSON object corresponding to a non-string payload, with the
property order of the object literals in `src/clob-client.ts`
(the `text` case is never serialized; see `wireFormat`). -/
def OutMsg.toJsonObj : OutMsg → List (String × JsonFlat)
  | .text s => [("", JsonFlat.str s)]
  | .marketSub assets =>
      [("type", JsonFlat.str "MARKET"), ("assets_ids", JsonFlat.strArr assets)]
  | .assetOp operation assets =>
      [("assets_ids", JsonFlat.strArr assets), ("operation", JsonFlat.str operation)]
  | .userSub auth markets =>
      [("auth", JsonFlat.objStr
          [("apiKey", auth.apiKey), ("secret", auth.secret),
           ("passphrase", auth.passphrase)]),
       ("type", JsonFlat.str "USER"),
       ("markets", JsonFlat.strArr markets)]

/-- Line 106 of `src/base-client.ts`: a string payload is handed to the
transport unchanged, everything else is `JSON.stringify`-ed first. -/
def wireFormat : OutMsg → String
  | .text s => s
  | .marketSub assets => renderObj (OutMsg.toJsonObj (.marketSub assets))
  | .assetOp operation assets => renderObj (OutMsg.toJsonObj (.assetOp operation assets))
  | .userSub auth markets => renderObj (OutMsg.toJsonObj (.userSub auth markets))

/-! ### The `BaseWebSocketClient` primitive operations -/

/-- `setState` (lines 195-201): mutate `this.state` and publish exactly
one `stateChange` event iff the value actually changes. -/
def setState (s : ClientState) (newState : ConnState) : ClientState × List Output :=
  if s.state ≠ newState then
    ({ s with state := newState }, [Output.stateChange newState s.state])
  else (s, [])

/-- The guard of line 207: `this.reconnectAttempts >= this.options.maxReconnectAttempts`.
With the default `maxReconnectAttempts = Infinity` the comparison is
always false. -/
def maxAttemptsReached (cfg : Config) (attempts : Nat) : Bool :=
  match cfg.maxReconnectAttempts with
  | none => false
  | some m => attempts ≥ m

/-- `scheduleReconnect` (lines 206-234).  The computed backoff delay
only affects *when* the armed timer fires, which the event-based model
abstracts; the arithmetic itself is modelled by `nextDelay` below.
Line 227 assigns `this.reconnectTimer = setTimeout(...)` without
clearing a still-pending previous reconnect timer, so such a timer
leaks: it keeps pending but can no longer be cancelled. -/
def scheduleReconnect (cfg : Config) (s : ClientState) : ClientState × List Output :=
  if maxAttemptsReached cfg s.reconnectAttempts then
    let r := setState s ConnState.disconnected
    (r.1, r.2 ++ [Output.errorEv "Max reconnection attempts reached"])
  else
    let r := setState s ConnState.reconnecting
    ({ r.1 with reconnectAttempts := r.1.reconnectAttempts + 1, reconnectTimer := true,
                leakedReconnectTimers :=
                  r.1.leakedReconnectTimers + (if s.reconnectTimer then 1 else 0) },
     r.2 ++ [Output.reconnectingEv (r.1.reconnectAttempts + 1) cfg.maxReconnectAttempts])

/-- Lines 216-220: `Math.min(reconnectDelay * 2 ** (attempts - 1) + Math.random() * 1000,
maxReconnectDelay)`.  `jitter` stands for the `Math.random() * 1000`
draw of one call; values are rationals since the jitter is a real
number in `[0, 1000)`. -/
def nextDelay (baseDelay maxDelay jitter : ℚ) (attemptCount : Nat) : ℚ :=
  min (baseDelay * 2 ^ (attemptCount - 1) + jitter) maxDelay

/-- The non-jittered component of `nextDelay`: the same expression with
the random draw removed. -/
def nextDelayNoJitter (baseDelay maxDelay : ℚ) (attemptCount : Nat) : ℚ :=
  min (baseDelay * 2 ^ (attemptCount - 1)) maxDelay

/-- `createConnection` (lines 113-127 up to handler installation):
transition to `connecting`, construct the WebSocket and arm the
connection-timeout timer.  The synchronous-throw branch of
`new WebSocket` is not modelled (the mock and real transports of this
repository construct successfully).  Assigning `this.ws` abandons a
still-live previous socket without detaching its handlers (it becomes
a zombie that keeps firing), and assigning `this.connectionTimer`
leaks a still-pending previous connection-timeout timer. -/
def createConnection (s : ClientState) : ClientState × List Output :=
  let r := setState s ConnState.connecting
  ({ r.1 with ws := some WsPhase.connecting, connectionTimer := true,
              zombies :=
                (match r.1.ws with
                 | some WsPhase.connecting => r.1.zombies ++ [WsPhase.connecting]
                 | some WsPhase.opened => r.1.zombies ++ [WsPhase.opened]
                 | _ => r.1.zombies),
              leakedConnTimers :=
                r.1.leakedConnTimers + (if r.1.connectionTimer then 1 else 0) },
   r.2 ++ [Output.wsNew])

/-- `connect()` (lines 80-87): a no-op when already `connected` or
`connecting`; otherwise clear the intentional-close flag and open. -/
def connect (s : ClientState) : ClientState × List Output :=
  if s.state = ConnState.connected ∨ s.state = ConnState.connecting then (s, [])
  else createConnection { s with isIntentionalClose := false }

/-- `cleanup` (lines 286-311) including the subclass `onCleanup`
(identical in both CLOB clients: clear the ledger and the callback
map): cancel every timer, detach and close the transport if it is
still `CONNECTING` or `OPEN`, reset the attempt counter.
`clearTimeout` acts only on the handles currently stored in the timer
fields, so leaked (overwritten) timers stay pending, and only the
current `this.ws` is detached — abandoned sockets keep their
handlers. -/
def cleanup (s : ClientState) : ClientState × List Output :=
  let s1 := { s with connectionTimer := false, heartbeatTimer := false,
                     reconnectTimer := false }
  let r :=
    match s1.ws with
    | none => (s1, ([] : List Output))
    | some ph =>
        if ph = WsPhase.opened ∨ ph = WsPhase.connecting then
          ({ s1 with ws := none }, [Output.wsCloseCall])
        else ({ s1 with ws := none }, [])
  ({ r.1 with reconnectAttempts := 0, ledger := [], eventCallbacks := [] }, r.2)

/-- `disconnect()` (lines 92-96): mark the close intentional, clean up,
force `disconnected`. -/
def disconnect (s : ClientState) : ClientState × List Output :=
  let r := cleanup { s with isIntentionalClose := true }
  let r2 := setState r.1 ConnState.disconnected
  (r2.1, r.2 ++ r2.2)

/-- `send` (lines 101-108): throws `'WebSocket is not connected'`
unless `this.ws` is non-null and the state is exactly `connected`;
otherwise hands the (possibly serialized, see `wireFormat`) payload to
the transport. -/
def send (s : ClientState) (data : OutMsg) : Except String (List Output) :=
  if s.ws = none ∨ s.state ≠ ConnState.connected then
    Except.error "WebSocket is not connected"
  else Except.ok [Output.wsSend data]

/-- The subclass `onConnected` hook (lines 140-149 and 329-332 of
`src/clob-client.ts`): the market channel replays the ledger in one
batched `MARKET` message only when it is non-empty; the user channel
always sends its full authenticated subscription.  Both go through
`this.send`, which throws when `this.ws` is null or the state is not
`connected` (the throw can only happen when the handler belongs to an
abandoned socket). -/
def onConnectedResult (cfg : Config) (kind : ChannelKind) (s : ClientState) :
    Except String (List Output) :=
  match kind with
  | .market =>
      if s.ledger.length > 0 then send s (OutMsg.marketSub s.ledger)
      else Except.ok []
  | .user => send s (OutMsg.userSub cfg.auth s.ledger)

/-- The tail of the `onopen` closure after the subclass hook ran:
publish `connected` and resolve the pending `connect()` — unless the
hook threw, in which case the exception escapes the handler first. -/
def afterConnected (prior : List Output) : Except String (List Output) → List Output
  | Except.ok os => prior ++ os ++ [Output.connectedEv, Output.resolveConnect]
  | Except.error _ => prior

/-- The closure body installed as `onopen` (lines 129-138): clear the
connection timeout, reset the attempt counter, flip to `connected`,
start the heartbeat, flush the (always empty) pending subscriptions,
run the subclass `onConnected`, publish `connected`, resolve the
pending `connect()`.  When `onConnected` throws (abandoned-socket
case), the exception escapes the handler before the `connected` event
is published. -/
def onOpenBody (cfg : Config) (kind : ChannelKind) (s : ClientState) :
    ClientState × List Output :=
  let r := setState { s with connectionTimer := false, reconnectAttempts := 0 }
             ConnState.connected
  let s2 := { r.1 with heartbeatTimer := true }
  (s2, afterConnected r.2 (onConnectedResult cfg kind s2))

/-- `onopen` firing on the current `this.ws`: the socket is now open. -/
def onOpen (cfg : Config) (kind : ChannelKind) (s : ClientState) :
    ClientState × List Output :=
  onOpenBody cfg kind { s with ws := some WsPhase.opened }

/-- The closure body installed as `onclose` (lines 140-151): clear the
connection timeout, stop the heartbeat, publish `disconnected`, then
either schedule a reconnect (unintentional close with `autoReconnect`)
or settle to `disconnected`.  The subclass `onDisconnected` hook is a
no-op in both CLOB clients. -/
def onCloseBody (cfg : Config) (s : ClientState) (code : Nat) (reason : String) :
    ClientState × List Output :=
  let s1 := { s with connectionTimer := false, heartbeatTimer := false }
  if s1.isIntentionalClose = false ∧ cfg.autoReconnect = true then
    let r := scheduleReconnect cfg s1
    (r.1, Output.disconnectedEv code reason :: r.2)
  else
    let r := setState s1 ConnState.disconnected
    (r.1, Output.disconnectedEv code reason :: r.2)

/-- `onclose` firing on the current `this.ws`: the socket is now
closed. -/
def onClose (cfg : Config) (s : ClientState) (code : Nat) (reason : String) :
    ClientState × List Output :=
  onCloseBody cfg { s with ws := some WsPhase.closed } code reason

/-- The connection-timeout callback (lines 122-127): publish the
timeout error through `handleError`, force-close the transport
(`this.ws?.close()`), reject the pending `connect()`.  The state is not
touched here; the forced close surfaces later as a transport `close`
event. -/
def onConnectionTimeout (cfg : Config) (s : ClientState) : ClientState × List Output :=
  let msg := "Connection timeout after " ++ toString cfg.connectionTimeout ++ "ms"
  ({ s with connectionTimer := false },
   [Output.errorEv msg] ++
     (if s.ws = none then [] else [Output.wsCloseCall]) ++
     [Output.rejectConnect msg])

/-- The reconnect-delay callback (lines 227-233): re-run
`createConnection`. -/
def onReconnectTimer (s : ClientState) : ClientState × List Output :=
  createConnection { s with reconnectTimer := false }

/-- One heartbeat interval tick (lines 241-245 with `sendHeartbeat`,
lines 325-332): probe only while `connected`; send errors are
swallowed. -/
def onHeartbeatTick (s : ClientState) : ClientState × List Output :=
  if s.state = ConnState.connected then
    match send s (OutMsg.text "ping") with
    | .ok os => (s, os)
    | .error _ => (s, [])
  else (s, [])

/-! ### The CLOB `subscribe` / `unsubscribe` operations -/

/-- An element of the JavaScript argument array: a string, or a value
of any other runtime type. -/
inductive JsItem
  | str (s : String)
  | nonString
deriving DecidableEq, Repr

/-- The JavaScript argument of `subscribe`/`unsubscribe`: an array of
items, or a non-array value. -/
inductive JsArg
  | notArray
  | array (items : List JsItem)
deriving DecidableEq, Repr

/-- The per-element check of the validation loops:
`typeof id === 'string' && id.trim() !== ''`.  `id.trim() === ''` holds
exactly when every character of the string is whitespace (modelled over
the ASCII whitespace characters recognized by `Char.isWhitespace`). -/
def validItem : JsItem → Bool
  | .str s => ! s.data.all Char.isWhitespace
  | .nonString => false

/-- The string payload of a validated item. -/
def itemStr : JsItem → String
  | .str s => s
  | .nonString => ""

/-- `true` iff the argument makes the validation loop throw. -/
def malformedArg : JsArg → Bool
  | .notArray => true
  | .array items => ! items.all validItem

/-- JS `Set.add`: append iff not yet present. -/
def setAdd (l : List String) (x : String) : List String :=
  if l.contains x then l else l ++ [x]

/-- Adding each element of `xs` in order. -/
def setAddAll (l : List String) (xs : List String) : List String :=
  xs.foldl setAdd l

/-- The result of a public synchronous call: the state after the call,
the outputs it produced, and the message of the exception it threw, if
any. -/
structure CallResult where
  state : ClientState
  out : List Output
  thrown : Option String
deriving DecidableEq, Repr

/-- `ClobMarketClient.subscribe` (lines 49-69) and
`ClobUserClient.subscribe` (lines 251-274): validate synchronously,
keep only the ids not already in the ledger, return early when nothing
is new, insert, and — when connected — send the incremental
subscription (market) or the full authenticated snapshot (user). -/
def subscribeCall (cfg : Config) (kind : ChannelKind) (s : ClientState)
    (arg : JsArg) : CallResult :=
  match arg with
  | .notArray =>
      ⟨s, [], some (match kind with
        | .market => "assetIds must be an array"
        | .user => "marketIds must be an array")⟩
  | .array items =>
      if ¬ items.all validItem then
        ⟨s, [], some (match kind with
          | .market => "Each asset ID must be a non-empty string"
          | .user => "Each market ID must be a non-empty string")⟩
      else
        let ids := items.map itemStr
        let newIds := ids.filter (fun id => ¬ s.ledger.contains id)
        if newIds.isEmpty then ⟨s, [], none⟩
        else
          let s1 := { s with ledger := setAddAll s.ledger newIds }
          if s1.state = ConnState.connected then
            let msg := match kind with
              | .market => OutMsg.assetOp "subscribe" newIds
              | .user => OutMsg.userSub cfg.auth s1.ledger
            match send s1 msg with
            | .ok os => ⟨s1, os, none⟩
            | .error e => ⟨s1, [], some e⟩
          else ⟨s1, [], none⟩

/-- `ClobMarketClient.unsubscribe` (lines 76-96) and
`ClobUserClient.unsubscribe` (lines 281-299): validate synchronously;
the market channel returns early when no id is currently subscribed and
sends an incremental unsubscription for the ones that are, the user
channel deletes unconditionally and resends its full snapshot whenever
connected. -/
def unsubscribeCall (cfg : Config) (kind : ChannelKind) (s : ClientState)
    (arg : JsArg) : CallResult :=
  match arg with
  | .notArray =>
      ⟨s, [], some (match kind with
        | .market => "assetIds must be an array"
        | .user => "marketIds must be an array")⟩
  | .array items =>
      if ¬ items.all validItem then
        ⟨s, [], some (match kind with
          | .market => "Each asset ID must be a non-empty string"
          | .user => "Each market ID must be a non-empty string")⟩
      else
        let ids := items.map itemStr
        match kind with
        | .market =>
            let existingIds := ids.filter (fun id => s.ledger.contains id)
            if existingIds.isEmpty then ⟨s, [], none⟩
            else
              let s1 := { s with
                ledger := s.ledger.filter (fun x => ¬ existingIds.contains x) }
              if s1.state = ConnState.connected then
                match send s1 (OutMsg.assetOp "unsubscribe" existingIds) with
                | .ok os => ⟨s1, os, none⟩
                | .error e => ⟨s1, [], some e⟩
              else ⟨s1, [], none⟩
        | .user =>
            let s1 := { s with ledger := s.ledger.filter (fun x => ¬ ids.contains x) }
            if s1.state = ConnState.connected then
              match send s1 (OutMsg.userSub cfg.auth s1.ledger) with
              | .ok os => ⟨s1, os, none⟩
              | .error e => ⟨s1, [], some e⟩
            else ⟨s1, [], none⟩

/-- `addEventCallback` (lines 185-194 / 361-370): register one callback
under an event name. -/
def addEventCallback (s : ClientState) (event : String) : ClientState :=
  { s with eventCallbacks := s.eventCallbacks ++ [event] }

/-! ### The event alphabet and the step function -/

/-- One atomic turn of the client's event loop: a public API call, a
transport callback of the socket currently held in `this.ws` or of an
abandoned (zombie) socket whose handlers were never detached, or a
timer callback — of a tracked timer or of a leaked (overwritten, no
longer cancellable) one.  A detached handler, a closed socket or a
cleared timer never fires, which the `step` guards enforce; everything
else can. -/
inductive Ev
  | connect
  | disconnect
  | subscribe (arg : JsArg)
  | unsubscribe (arg : JsArg)
  | addCallback (event : String)
  | wsOpen
  | wsClose (code : Nat) (reason : String)
  | wsError
  | connTimeout
  | reconnectFire
  | heartbeatTick
  | zombieOpen (i : Nat)
  | zombieClose (i : Nat) (code : Nat) (reason : String)
  | zombieError (i : Nat)
  | leakedConnTimeout
  | leakedReconnectFire
deriving DecidableEq, Repr

/-- The small-step semantics of one client instance. -/
def step (cfg : Config) (kind : ChannelKind) (s : ClientState) : Ev → ClientState × List Output
  | .connect => connect s
  | .disconnect => disconnect s
  | .subscribe arg =>
      let r := subscribeCall cfg kind s arg
      (r.state, r.out)
  | .unsubscribe arg =>
      let r := unsubscribeCall cfg kind s arg
      (r.state, r.out)
  | .addCallback event => (addEventCallback s event, [])
  | .wsOpen =>
      if s.ws = some WsPhase.connecting then onOpen cfg kind s else (s, [])
  | .wsClose code reason =>
      if s.ws = some WsPhase.connecting ∨ s.ws = some WsPhase.opened then
        onClose cfg s code reason
      else (s, [])
  | .wsError =>
      if s.ws = some WsPhase.connecting ∨ s.ws = some WsPhase.opened then
        (s, [Output.errorEv "WebSocket error"])
      else (s, [])
  | .connTimeout =>
      if s.connectionTimer then onConnectionTimeout cfg s else (s, [])
  | .reconnectFire =>
      if s.reconnectTimer then onReconnectTimer s else (s, [])
  | .heartbeatTick =>
      if s.heartbeatTimer then onHeartbeatTick s else (s, [])
  | .zombieOpen i =>
      -- an abandoned handshake socket reports open; its handlers run
      -- against the shared instance state
      if s.zombies[i]? = some WsPhase.connecting then
        onOpenBody cfg kind { s with zombies := s.zombies.set i WsPhase.opened }
      else (s, [])
  | .zombieClose i code reason =>
      -- an abandoned socket closes; the socket is inert afterwards
      if i < s.zombies.length then
        onCloseBody cfg { s with zombies := s.zombies.eraseIdx i } code reason
      else (s, [])
  | .zombieError i =>
      if i < s.zombies.length then (s, [Output.errorEv "WebSocket error"]) else (s, [])
  | .leakedConnTimeout =>
      -- an overwritten connection-timeout timer fires; its callback
      -- reads the current `this.ws` and `this.options`
      if s.leakedConnTimers > 0 then
        onConnectionTimeout cfg { s with leakedConnTimers := s.leakedConnTimers - 1 }
      else (s, [])
  | .leakedReconnectFire =>
      -- an overwritten reconnect timer fires; its callback has no
      -- intentional-close or generation guard and re-runs
      -- `createConnection` unconditionally (base-client.ts:227-233)
      if s.leakedReconnectTimers > 0 then
        createConnection { s with leakedReconnectTimers := s.leakedReconnectTimers - 1 }
      else (s, [])

/-- Running a sequence of events, concatenating the outputs. -/
def run (cfg : Config) (kind : ChannelKind) (s : ClientState) :
    List Ev → ClientState × List Output
  | [] => (s, [])
  | e :: es =>
      let r := step cfg kind s e
      let r2 := run cfg kind r.1 es
      (r2.1, r.2 ++ r2.2)

/-! ### Observation helpers -/

/-- Whether an output is an `error` event. -/
def isErrorOut : Output → Bool
  | .errorEv _ => true
  | _ => false

/-- Whether an output is an outbound transport send. -/
def isSendOut : Output → Bool
  | .wsSend _ => true
  | _ => false

/-- The subscription keys enumerated by one outbound message. -/
def msgKeys : OutMsg → List String
  | .text _ => []
  | .marketSub assets => assets
  | .assetOp _ assets => assets
  | .userSub _ markets => markets

/-- All subscription keys transmitted by the sends of an output list,
in order and with multiplicity. -/
def sentKeys : List Output → List String
  | [] => []
  | Output.wsSend m :: rest => msgKeys m ++ sentKeys rest
  | _ :: rest => sentKeys rest

/-- The `(state, previousState)` payloads of the `stateChange` events in
an output list, in publication order. -/
def stateChanges (outs : List Output) : List (ConnState × ConnState) :=
  outs.filterMap (fun o => match o with
    | Output.stateChange a b => some (a, b)
    | _ => none)

/-- The transition edges of the §4.4 state diagram of the spec, as
`(source, target)` pairs of distinct states (the catch-all
`any state --disconnect()--> disconnected` contributes every pair into
`disconnected`). -/
def specEdges : List (ConnState × ConnState) :=
  [(ConnState.disconnected, ConnState.connecting),
   (ConnState.connecting, ConnState.connected),
   (ConnState.connecting, ConnState.disconnected),
   (ConnState.connected, ConnState.disconnected),
   (ConnState.connected, ConnState.reconnecting),
   (ConnState.reconnecting, ConnState.connected),
   (ConnState.reconnecting, ConnState.disconnected)]

/-- The transition edges the code actually takes: the §4.4 edges plus
the three reconnection-cycle edges the diagram omits —
`reconnecting → connecting` (an elapsed retry delay re-enters
`createConnection`), `connecting → reconnecting` (a handshake that
fails schedules the next retry directly), and
`connected → connecting` (a reconnect timer armed before a
caller-issued `connect()`, which does not cancel it, fires after that
connect succeeded). -/
def extEdges : List (ConnState × ConnState) :=
  specEdges ++
  [(ConnState.reconnecting, ConnState.connecting),
   (ConnState.connecting, ConnState.reconnecting),
   (ConnState.connected, ConnState.connecting)]

/-- The transition edges the code actually takes: `extEdges` plus
`disconnected → connected`, taken when an abandoned socket — whose
handlers `createConnection` never detaches — reports open after a
`disconnect()`. -/
def fullEdges : List (ConnState × ConnState) :=
  extEdges ++ [(ConnState.disconnected, ConnState.connected)]

/-! ### Per-operation state and `stateChange` characterizations -/

/-- The current-socket/state relation assumed by C8: a current socket
in handshake belongs to a `connecting` client, an open current socket
to a `connected` one, and a `connected` client holds an open current
socket.  (It describes the states the send claim starts from; an
abandoned socket's stray `onopen` can leave it, which is exactly when
`this.send` throws despite `state === 'connected'`.) -/
def Inv (s : ClientState) : Prop :=
  (s.ws = some WsPhase.connecting → s.state = ConnState.connecting) ∧
  (s.ws = some WsPhase.opened → s.state = ConnState.connected) ∧
  (s.state = ConnState.connected → s.ws = some WsPhase.opened)

theorem setState_state (s : ClientState) (ns : ConnState) :
    (setState s ns).1.state = ns := by
  simp only [setState]
  split_ifs <;> simp_all

theorem setState_stateChanges (s : ClientState) (ns : ConnState) :
    stateChanges (setState s ns).2 = (if s.state = ns then [] else [(ns, s.state)]) := by
  simp only [setState]
  split_ifs <;> simp_all [stateChanges]

theorem stateChanges_append (a b : List Output) :
    stateChanges (a ++ b) = stateChanges a ++ stateChanges b := by
  simp [stateChanges]

theorem createConnection_ws_state (s : ClientState) :
    (createConnection s).1.ws = some WsPhase.connecting ∧
    (createConnection s).1.state = ConnState.connecting := by
  simp only [createConnection, setState]
  split_ifs <;> simp_all

theorem createConnection_stateChanges (s : ClientState) :
    stateChanges (createConnection s).2 =
      (if s.state = ConnState.connecting then []
       else [(ConnState.connecting, s.state)]) := by
  simp only [createConnection, setState]
  split_ifs <;> simp_all [stateChanges]

theorem disconnect_fields (s : ClientState) :
    (disconnect s).1.ws = none ∧ (disconnect s).1.state = ConnState.disconnected ∧
    (disconnect s).1.connectionTimer = false ∧ (disconnect s).1.reconnectTimer = false ∧
    (disconnect s).1.heartbeatTimer = false ∧ (disconnect s).1.isIntentionalClose = true ∧
    (disconnect s).1.ledger = [] ∧ (disconnect s).1.eventCallbacks = [] ∧
    (disconnect s).1.reconnectAttempts = 0 := by
  rcases hws : s.ws with _ | ph
  · simp only [disconnect, cleanup, setState, hws]
    split_ifs <;> simp_all
  · simp only [disconnect, cleanup, setState, hws]
    split_ifs <;> simp_all

theorem disconnect_stateChanges (s : ClientState) :
    stateChanges (disconnect s).2 =
      (if s.state = ConnState.disconnected then []
       else [(ConnState.disconnected, s.state)]) := by
  rcases hws : s.ws with _ | ph <;>
    simp only [disconnect, cleanup, setState, hws] <;>
    split_ifs <;> simp_all [stateChanges, stateChanges_append]

theorem subscribeCall_fields (cfg : Config) (kind : ChannelKind) (s : ClientState)
    (arg : JsArg) :
    (subscribeCall cfg kind s arg).state.ws = s.ws ∧
    (subscribeCall cfg kind s arg).state.state = s.state ∧
    (subscribeCall cfg kind s arg).state.isIntentionalClose = s.isIntentionalClose ∧
    (subscribeCall cfg kind s arg).state.reconnectAttempts = s.reconnectAttempts ∧
    (subscribeCall cfg kind s arg).state.zombies = s.zombies := by
  rcases arg with _ | items
  · simp only [subscribeCall]; simp
  · simp only [subscribeCall, send]
    split_ifs <;> simp_all

theorem unsubscribeCall_fields (cfg : Config) (kind : ChannelKind) (s : ClientState)
    (arg : JsArg) :
    (unsubscribeCall cfg kind s arg).state.ws = s.ws ∧
    (unsubscribeCall cfg kind s arg).state.state = s.state ∧
    (unsubscribeCall cfg kind s arg).state.isIntentionalClose = s.isIntentionalClose ∧
    (unsubscribeCall cfg kind s arg).state.reconnectAttempts = s.reconnectAttempts ∧
    (unsubscribeCall cfg kind s arg).state.zombies = s.zombies := by
  rcases arg with _ | items
  · simp only [unsubscribeCall]; simp
  · simp only [unsubscribeCall, send]
    cases kind <;> split_ifs <;> simp_all

theorem subscribeCall_stateChanges (cfg : Config) (kind : ChannelKind) (s : ClientState)
    (arg : JsArg) : stateChanges (subscribeCall cfg kind s arg).out = [] := by
  rcases arg with _ | items
  · simp only [subscribeCall]; simp [stateChanges]
  · simp only [subscribeCall, send]
    split_ifs <;> simp_all [stateChanges]

theorem unsubscribeCall_stateChanges (cfg : Config) (kind : ChannelKind) (s : ClientState)
    (arg : JsArg) : stateChanges (unsubscribeCall cfg kind s arg).out = [] := by
  rcases arg with _ | items
  · simp only [unsubscribeCall]; simp [stateChanges]
  · simp only [unsubscribeCall, send]
    cases kind <;> split_ifs <;> simp_all [stateChanges]

theorem onConnectionTimeout_ws_state (cfg : Config) (s : ClientState) :
    (onConnectionTimeout cfg s).1.ws = s.ws ∧
    (onConnectionTimeout cfg s).1.state = s.state := by
  simp only [onConnectionTimeout]
  simp

theorem onConnectionTimeout_stateChanges (cfg : Config) (s : ClientState) :
    stateChanges (onConnectionTimeout cfg s).2 = [] := by
  simp only [onConnectionTimeout]
  split_ifs <;> simp [stateChanges]

theorem onHeartbeatTick_state (s : ClientState) : (onHeartbeatTick s).1 = s := by
  simp only [onHeartbeatTick, send]
  split_ifs <;> simp_all

theorem onHeartbeatTick_stateChanges (s : ClientState) :
    stateChanges (onHeartbeatTick s).2 = [] := by
  simp only [onHeartbeatTick, send]
  split_ifs <;> simp_all [stateChanges]

theorem onConnectedResult_ok_stateChanges (cfg : Config) (kind : ChannelKind)
    (s : ClientState) (os : List Output)
    (h : onConnectedResult cfg kind s = Except.ok os) : stateChanges os = [] := by
  cases kind <;> simp only [onConnectedResult, send] at h <;> split_ifs at h <;>
    first
      | (simp only [Except.ok.injEq] at h
         subst h
         simp [stateChanges])
      | simp at h

theorem stateChanges_afterConnected (cfg : Config) (kind : ChannelKind)
    (s : ClientState) (prior : List Output) :
    stateChanges (afterConnected prior (onConnectedResult cfg kind s))
      = stateChanges prior := by
  rcases hres : onConnectedResult cfg kind s with e | os
  · simp [afterConnected]
  · simp only [afterConnected]
    rw [stateChanges_append, stateChanges_append,
       onConnectedResult_ok_stateChanges cfg kind s os hres]
    simp [stateChanges]

theorem onOpenBody_state (cfg : Config) (kind : ChannelKind) (s : ClientState) :
    (onOpenBody cfg kind s).1.state = ConnState.connected := by
  simp [onOpenBody, setState_state]

theorem onOpenBody_stateChanges (cfg : Config) (kind : ChannelKind) (s : ClientState) :
    stateChanges (onOpenBody cfg kind s).2 =
      (if s.state = ConnState.connected then []
       else [(ConnState.connected, s.state)]) := by
  simp only [onOpenBody]
  rw [stateChanges_afterConnected, setState_stateChanges]

/-- The state `onclose` settles to, as a function of the pre-state. -/
def closeTarget (cfg : Config) (s : ClientState) : ConnState :=
  if s.isIntentionalClose = false ∧ cfg.autoReconnect = true then
    (if maxAttemptsReached cfg s.reconnectAttempts then ConnState.disconnected
     else ConnState.reconnecting)
  else ConnState.disconnected

theorem closeTarget_cases (cfg : Config) (s : ClientState) :
    closeTarget cfg s = ConnState.disconnected ∨
    closeTarget cfg s = ConnState.reconnecting := by
  unfold closeTarget
  split_ifs <;> simp

theorem closeTarget_disconnected (cfg : Config) (s : ClientState)
    (h : s.isIntentionalClose = true ∨ cfg.autoReconnect = false ∨
         maxAttemptsReached cfg s.reconnectAttempts = true) :
    closeTarget cfg s = ConnState.disconnected := by
  unfold closeTarget
  split_ifs <;> simp_all

theorem closeTarget_eq_disconnected_inv (cfg : Config) (s : ClientState)
    (h : closeTarget cfg s = ConnState.disconnected) :
    s.isIntentionalClose = true ∨ cfg.autoReconnect = false ∨
      maxAttemptsReached cfg s.reconnectAttempts = true := by
  unfold closeTarget at h
  cases hI : s.isIntentionalClose <;> cases hA : cfg.autoReconnect <;>
    cases hM : maxAttemptsReached cfg s.reconnectAttempts <;> simp_all

theorem onCloseBody_state (cfg : Config) (s : ClientState) (code : Nat)
    (reason : String) :
    (onCloseBody cfg s code reason).1.state = closeTarget cfg s := by
  simp only [onCloseBody, scheduleReconnect, setState, closeTarget]
  split_ifs <;> simp_all

theorem onCloseBody_stateChanges (cfg : Config) (s : ClientState) (code : Nat)
    (reason : String) :
    stateChanges (onCloseBody cfg s code reason).2 =
      (if s.state = closeTarget cfg s then []
       else [(closeTarget cfg s, s.state)]) := by
  simp only [onCloseBody, scheduleReconnect, setState, closeTarget]
  split_ifs <;> simp_all [stateChanges, stateChanges_append]

theorem onCloseBody_intentional (cfg : Config) (s : ClientState) (code : Nat)
    (reason : String) :
    (onCloseBody cfg s code reason).1.isIntentionalClose = s.isIntentionalClose := by
  simp only [onCloseBody, scheduleReconnect, setState]
  split_ifs <;> simp_all

theorem onCloseBody_attempts_of_disconnected (cfg : Config) (s : ClientState)
    (code : Nat) (reason : String)
    (h : closeTarget cfg s = ConnState.disconnected) :
    (onCloseBody cfg s code reason).1.reconnectAttempts = s.reconnectAttempts := by
  cases hI : s.isIntentionalClose <;> cases hA : cfg.autoReconnect <;>
    cases hM : maxAttemptsReached cfg s.reconnectAttempts <;>
    simp_all [onCloseBody, scheduleReconnect, setState, closeTarget] <;>
    split_ifs <;> rfl

/-! ### Reachability invariant for the close handlers

While `connectionState` is `disconnected` and a socket with installed
handlers could still deliver a close, that close cannot schedule a
reconnect: the instance got to `disconnected` through `disconnect()`
(intentional flag set), through a close with auto-reconnect disabled,
or through attempt exhaustion — and none of these conditions is undone
while the state stays `disconnected`. -/

/-- Whether any socket with installed handlers is still live: the
current one in handshake or open, or an abandoned one. -/
def hasLiveSocket (s : ClientState) : Prop :=
  s.ws = some WsPhase.connecting ∨ s.ws = some WsPhase.opened ∨ s.zombies ≠ []

/-- The invariant justifying that a late close never makes
`disconnected → reconnecting` reachable. -/
def StateK (cfg : Config) (s : ClientState) : Prop :=
  s.state = ConnState.disconnected → hasLiveSocket s →
    s.isIntentionalClose = true ∨ cfg.autoReconnect = false ∨
      maxAttemptsReached cfg s.reconnectAttempts = true

theorem stateK_initState (cfg : Config) : StateK cfg initState := by
  intro _ hlive
  simp [hasLiveSocket, initState] at hlive

theorem stateK_congr (cfg : Config) (s t : ClientState)
    (hst : t.state = s.state) (hic : t.isIntentionalClose = s.isIntentionalClose)
    (hra : t.reconnectAttempts = s.reconnectAttempts) (hws : t.ws = s.ws)
    (hz : t.zombies = s.zombies) (h : StateK cfg s) : StateK cfg t := by
  intro hd hlive
  rw [hst] at hd
  rw [hic, hra]
  refine h hd ?_
  unfold hasLiveSocket at hlive ⊢
  rw [hws, hz] at hlive
  exact hlive

theorem stateK_onCloseBody (cfg : Config) (s : ClientState) (code : Nat)
    (reason : String) : StateK cfg (onCloseBody cfg s code reason).1 := by
  intro hd _hlive
  rw [onCloseBody_state] at hd
  rw [onCloseBody_intentional, onCloseBody_attempts_of_disconnected cfg s code reason hd]
  exact closeTarget_eq_disconnected_inv cfg s hd

theorem stateK_step (cfg : Config) (kind : ChannelKind) (s : ClientState) (e : Ev)
    (h : StateK cfg s) : StateK cfg (step cfg kind s e).1 := by
  cases e with
  | connect =>
      by_cases hc : s.state = ConnState.connected ∨ s.state = ConnState.connecting
      · simpa [step, connect, hc] using h
      · have hstep : (step cfg kind s Ev.connect).1
            = (createConnection { s with isIntentionalClose := false }).1 := by
          simp [step, connect, hc]
        intro hd
        rw [hstep, (createConnection_ws_state _).2] at hd
        exact absurd hd (by decide)
  | disconnect =>
      intro _ _
      exact Or.inl (disconnect_fields s).2.2.2.2.2.1
  | subscribe arg =>
      obtain ⟨hw, hst, hic, hra, hz⟩ := subscribeCall_fields cfg kind s arg
      have hstep : (step cfg kind s (Ev.subscribe arg)).1
          = (subscribeCall cfg kind s arg).state := rfl
      rw [hstep]
      exact stateK_congr cfg s _ hst hic hra hw hz h
  | unsubscribe arg =>
      obtain ⟨hw, hst, hic, hra, hz⟩ := unsubscribeCall_fields cfg kind s arg
      have hstep : (step cfg kind s (Ev.unsubscribe arg)).1
          = (unsubscribeCall cfg kind s arg).state := rfl
      rw [hstep]
      exact stateK_congr cfg s _ hst hic hra hw hz h
  | addCallback event =>
      exact stateK_congr cfg s _ rfl rfl rfl rfl rfl h
  | wsOpen =>
      by_cases hg : s.ws = some WsPhase.connecting
      · have hstep : (step cfg kind s Ev.wsOpen).1
            = (onOpenBody cfg kind { s with ws := some WsPhase.opened }).1 := by
          simp [step, onOpen, hg]
        intro hd
        rw [hstep, onOpenBody_state] at hd
        exact absurd hd (by decide)
      · simpa [step, hg] using h
  | wsClose code reason =>
      by_cases hg : s.ws = some WsPhase.connecting ∨ s.ws = some WsPhase.opened
      · have hstep : (step cfg kind s (Ev.wsClose code reason)).1
            = (onCloseBody cfg { s with ws := some WsPhase.closed } code reason).1 := by
          simp [step, onClose, hg]
        rw [hstep]
        exact stateK_onCloseBody cfg _ code reason
      · simpa [step, hg] using h
  | wsError =>
      by_cases hg : s.ws = some WsPhase.connecting ∨ s.ws = some WsPhase.opened <;>
        simpa [step, hg] using h
  | connTimeout =>
      by_cases hg : s.connectionTimer
      · have hstep : (step cfg kind s Ev.connTimeout).1
            = { s with connectionTimer := false } := by
          simp [step, hg, onConnectionTimeout]
        rw [hstep]
        exact stateK_congr cfg s _ rfl rfl rfl rfl rfl h
      · simpa [step, hg] using h
  | reconnectFire =>
      by_cases hg : s.reconnectTimer
      · have hstep : (step cfg kind s Ev.reconnectFire).1
            = (createConnection { s with reconnectTimer := false }).1 := by
          simp [step, hg, onReconnectTimer]
        intro hd
        rw [hstep, (createConnection_ws_state _).2] at hd
        exact absurd hd (by decide)
      · simpa [step, hg] using h
  | heartbeatTick =>
      by_cases hg : s.heartbeatTimer
      · have hstep : (step cfg kind s Ev.heartbeatTick).1 = s := by
          simp [step, hg, onHeartbeatTick_state]
        rw [hstep]
        exact h
      · simpa [step, hg] using h
  | zombieOpen i =>
      by_cases hg : s.zombies[i]? = some WsPhase.connecting
      · have hstep : (step cfg kind s (Ev.zombieOpen i)).1
            = (onOpenBody cfg kind
                { s with zombies := s.zombies.set i WsPhase.opened }).1 := by
          simp [step, hg]
        intro hd
        rw [hstep, onOpenBody_state] at hd
        exact absurd hd (by decide)
      · simpa [step, hg] using h
  | zombieClose i code reason =>
      by_cases hg : i < s.zombies.length
      · have hstep : (step cfg kind s (Ev.zombieClose i code reason)).1
            = (onCloseBody cfg { s with zombies := s.zombies.eraseIdx i }
                code reason).1 := by
          simp [step, hg]
        rw [hstep]
        exact stateK_onCloseBody cfg _ code reason
      · simpa [step, hg] using h
  | zombieError i =>
      by_cases hg : i < s.zombies.length <;> simpa [step, hg] using h
  | leakedConnTimeout =>
      by_cases hg : s.leakedConnTimers > 0
      · have hstep : (step cfg kind s Ev.leakedConnTimeout).1
            = (onConnectionTimeout cfg
                { s with leakedConnTimers := s.leakedConnTimers - 1 }).1 := by
          simp [step, hg]
        rw [hstep]
        exact stateK_congr cfg s _ rfl rfl rfl rfl rfl h
      · simpa [step, hg] using h
  | leakedReconnectFire =>
      by_cases hg : s.leakedReconnectTimers > 0
      · have hstep : (step cfg kind s Ev.leakedReconnectFire).1
            = (createConnection
                { s with leakedReconnectTimers := s.leakedReconnectTimers - 1 }).1 := by
          simp [step, hg]
        intro hd
        rw [hstep, (createConnection_ws_state _).2] at hd
        exact absurd hd (by decide)
      · simpa [step, hg] using h

theorem stateK_run (cfg : Config) (kind : ChannelKind) (s : ClientState) (evs : List Ev)
    (h : StateK cfg s) : StateK cfg (run cfg kind s evs).1 := by
  induction evs generalizing s with
  | nil => simpa [run]
  | cons e es ih => exact ih (step cfg kind s e).1 (stateK_step cfg kind s e h)

/-- Single-step characterization of the published `stateChange` events
and of the edge taken: from a state satisfying `StateK`, every event
either leaves `connectionState` unchanged and publishes no
`stateChange`, or moves it along one edge of `fullEdges` and publishes
exactly one `stateChange` carrying the new and the previous state. -/
theorem edgesOk_step (cfg : Config) (kind : ChannelKind) (s : ClientState) (e : Ev)
    (hK : StateK cfg s) :
    stateChanges (step cfg kind s e).2 =
      (if (step cfg kind s e).1.state = s.state then []
       else [((step cfg kind s e).1.state, s.state)]) ∧
    ((step cfg kind s e).1.state ≠ s.state →
      (s.state, (step cfg kind s e).1.state) ∈ fullEdges) := by
  cases e with
  | connect =>
      by_cases hc : s.state = ConnState.connected ∨ s.state = ConnState.connecting
      · simp [step, connect, hc, stateChanges]
      · have hs' := (createConnection_ws_state { s with isIntentionalClose := false }).2
        have ho := createConnection_stateChanges { s with isIntentionalClose := false }
        rcases hst : s.state <;>
          simp_all [step, connect, fullEdges, extEdges, specEdges]
  | disconnect =>
      have hs' := (disconnect_fields s).2.1
      have ho := disconnect_stateChanges s
      have hstep : step cfg kind s Ev.disconnect = disconnect s := rfl
      rw [hstep, hs', ho]
      rcases hst : s.state <;> simp_all [fullEdges, extEdges, specEdges]
  | subscribe arg =>
      have hsc := subscribeCall_stateChanges cfg kind s arg
      have hss := (subscribeCall_fields cfg kind s arg).2.1
      have hstep : step cfg kind s (Ev.subscribe arg) =
        ((subscribeCall cfg kind s arg).state, (subscribeCall cfg kind s arg).out) := rfl
      rw [hstep]
      simp [hsc, hss]
  | unsubscribe arg =>
      have hsc := unsubscribeCall_stateChanges cfg kind s arg
      have hss := (unsubscribeCall_fields cfg kind s arg).2.1
      have hstep : step cfg kind s (Ev.unsubscribe arg) =
        ((unsubscribeCall cfg kind s arg).state,
         (unsubscribeCall cfg kind s arg).out) := rfl
      rw [hstep]
      simp [hsc, hss]
  | addCallback event =>
      simp [step, addEventCallback, stateChanges]
  | wsOpen =>
      by_cases hg : s.ws = some WsPhase.connecting
      · have hstep : step cfg kind s Ev.wsOpen
            = onOpenBody cfg kind { s with ws := some WsPhase.opened } := by
          simp [step, onOpen, hg]
        have hs' := onOpenBody_state cfg kind { s with ws := some WsPhase.opened }
        have ho := onOpenBody_stateChanges cfg kind { s with ws := some WsPhase.opened }
        rw [hstep, hs', ho]
        rcases hst : s.state <;> simp_all [fullEdges, extEdges, specEdges]
      · simp [step, hg, stateChanges]
  | wsClose code reason =>
      by_cases hg : s.ws = some WsPhase.connecting ∨ s.ws = some WsPhase.opened
      · have hstep : step cfg kind s (Ev.wsClose code reason)
            = onCloseBody cfg { s with ws := some WsPhase.closed } code reason := by
          simp [step, onClose, hg]
        have hs' := onCloseBody_state cfg { s with ws := some WsPhase.closed } code reason
        have ho := onCloseBody_stateChanges cfg { s with ws := some WsPhase.closed }
          code reason
        have hct : closeTarget cfg { s with ws := some WsPhase.closed }
            = closeTarget cfg s := rfl
        rw [hstep, hs', ho, hct]
        rcases hst : s.state with _ | _ | _ | _
        · have hlive : hasLiveSocket s := by
            rcases hg with h | h
            · exact Or.inl h
            · exact Or.inr (Or.inl h)
          have hd := closeTarget_disconnected cfg s (hK hst hlive)
          simp [hd, hst]
        · rcases closeTarget_cases cfg s with hT | hT <;>
            simp_all [fullEdges, extEdges, specEdges]
        · rcases closeTarget_cases cfg s with hT | hT <;>
            simp_all [fullEdges, extEdges, specEdges]
        · rcases closeTarget_cases cfg s with hT | hT <;>
            simp_all [fullEdges, extEdges, specEdges]
      · simp [step, hg, stateChanges]
  | wsError =>
      by_cases hg : s.ws = some WsPhase.connecting ∨ s.ws = some WsPhase.opened <;>
        simp [step, hg, stateChanges]
  | connTimeout =>
      by_cases hg : s.connectionTimer
      · have hstep : step cfg kind s Ev.connTimeout = onConnectionTimeout cfg s := by
          simp [step, hg]
        rw [hstep, (onConnectionTimeout_ws_state cfg s).2, onConnectionTimeout_stateChanges]
        simp
      · simp [step, hg, stateChanges]
  | reconnectFire =>
      by_cases hg : s.reconnectTimer
      · have hs' := (createConnection_ws_state { s with reconnectTimer := false }).2
        have ho := createConnection_stateChanges { s with reconnectTimer := false }
        rcases hst : s.state <;>
          simp_all [step, onReconnectTimer, fullEdges, extEdges, specEdges]
      · simp [step, hg, stateChanges]
  | heartbeatTick =>
      by_cases hg : s.heartbeatTimer
      · have hsc := onHeartbeatTick_stateChanges s
        have hss := onHeartbeatTick_state s
        simp [step, hg, hsc, hss]
      · simp [step, hg, stateChanges]
  | zombieOpen i =>
      by_cases hg : s.zombies[i]? = some WsPhase.connecting
      · have hstep : step cfg kind s (Ev.zombieOpen i)
            = onOpenBody cfg kind
                { s with zombies := s.zombies.set i WsPhase.opened } := by
          simp [step, hg]
        have hs' := onOpenBody_state cfg kind
          { s with zombies := s.zombies.set i WsPhase.opened }
        have ho := onOpenBody_stateChanges cfg kind
          { s with zombies := s.zombies.set i WsPhase.opened }
        rw [hstep, hs', ho]
        rcases hst : s.state <;> simp_all [fullEdges, extEdges, specEdges]
      · simp [step, hg, stateChanges]
  | zombieClose i code reason =>
      by_cases hg : i < s.zombies.length
      · have hstep : step cfg kind s (Ev.zombieClose i code reason)
            = onCloseBody cfg { s with zombies := s.zombies.eraseIdx i } code reason := by
          simp [step, hg]
        have hs' := onCloseBody_state cfg { s with zombies := s.zombies.eraseIdx i }
          code reason
        have ho := onCloseBody_stateChanges cfg { s with zombies := s.zombies.eraseIdx i }
          code reason
        have hct : closeTarget cfg { s with zombies := s.zombies.eraseIdx i }
            = closeTarget cfg s := rfl
        rw [hstep, hs', ho, hct]
        rcases hst : s.state with _ | _ | _ | _
        · have hlive : hasLiveSocket s := by
            refine Or.inr (Or.inr ?_)
            intro hnil
            rw [hnil] at hg
            exact absurd hg (by simp)
          have hd := closeTarget_disconnected cfg s (hK hst hlive)
          simp [hd, hst]
        · rcases closeTarget_cases cfg s with hT | hT <;>
            simp_all [fullEdges, extEdges, specEdges]
        · rcases closeTarget_cases cfg s with hT | hT <;>
            simp_all [fullEdges, extEdges, specEdges]
        · rcases closeTarget_cases cfg s with hT | hT <;>
            simp_all [fullEdges, extEdges, specEdges]
      · simp [step, hg, stateChanges]
  | zombieError i =>
      by_cases hg : i < s.zombies.length <;> simp [step, hg, stateChanges]
  | leakedConnTimeout =>
      by_cases hg : s.leakedConnTimers > 0
      · have hstep : step cfg kind s Ev.leakedConnTimeout
            = onConnectionTimeout cfg
                { s with leakedConnTimers := s.leakedConnTimers - 1 } := by
          simp [step, hg]
        rw [hstep, (onConnectionTimeout_ws_state cfg _).2, onConnectionTimeout_stateChanges]
        simp
      · simp [step, hg, stateChanges]
  | leakedReconnectFire =>
      by_cases hg : s.leakedReconnectTimers > 0
      · have hs' := (createConnection_ws_state
          { s with leakedReconnectTimers := s.leakedReconnectTimers - 1 }).2
        have ho := createConnection_stateChanges
          { s with leakedReconnectTimers := s.leakedReconnectTimers - 1 }
        rcases hst : s.state <;>
          simp_all [step, fullEdges, extEdges, specEdges]
      · simp [step, hg, stateChanges]



/-! ### The claims -/

/-- C6: calling `connect()` while the state is already `connected` or
`connecting` is a complete no-op that returns successfully: the step
produces no outputs (in particular no transport construction and no
state change) and leaves the entire instance state — timers and
intentional-close flag included — unchanged. -/
theorem C6_connect_idempotent (cfg : Config) (kind : ChannelKind) (s : ClientState)
    (h : s.state = ConnState.connected ∨ s.state = ConnState.connecting) :
    step cfg kind s Ev.connect = (s, []) := by
  simp [step, connect, h]

/-- Witness for C6 at a concrete connected state. -/
theorem C6_witness :
    (({ initState with state := ConnState.connected } : ClientState).state
        = ConnState.connected ∨
     ({ initState with state := ConnState.connected } : ClientState).state
        = ConnState.connecting) ∧
    step DEFAULTS ChannelKind.market { initState with state := ConnState.connected }
        Ev.connect
      = ({ initState with state := ConnState.connected }, []) :=
  ⟨Or.inl rfl,
   C6_connect_idempotent DEFAULTS ChannelKind.market
     { initState with state := ConnState.connected } (Or.inl rfl)⟩

/-- C7: for every `attemptCount ≥ 1` the reconnect delay of
`scheduleReconnect` equals
`min(baseDelay * 2^(attemptCount-1) + jitter, maxDelay)` with the
jitter drawn per call from `[0, 1000)`; for `baseDelay = 1000` and
`maxDelay = 30000` the non-jittered component is non-decreasing in the
attempt number and equals `30000` once `1000 * 2^(attempt-1) ≥ 30000`. -/
theorem C7_backoff (jitter : ℚ) (a b : Nat) (_hj0 : 0 ≤ jitter) (_hj1 : jitter < 1000)
    (_ha : 1 ≤ a) (hab : a ≤ b) :
    (∀ baseDelay maxDelay : ℚ,
        nextDelay baseDelay maxDelay jitter a
          = min (baseDelay * 2 ^ (a - 1) + jitter) maxDelay) ∧
    nextDelayNoJitter 1000 30000 a ≤ nextDelayNoJitter 1000 30000 b ∧
    ((30000 : ℚ) ≤ 1000 * 2 ^ (a - 1) → nextDelayNoJitter 1000 30000 a = 30000) := by
  refine ⟨fun baseDelay maxDelay => rfl, ?_, fun hcap => ?_⟩
  · unfold nextDelayNoJitter
    have hp : (2 : ℚ) ^ (a - 1) ≤ 2 ^ (b - 1) := by
      gcongr <;> first | norm_num | omega
    have h2 : (1000 : ℚ) * 2 ^ (a - 1) ≤ 1000 * 2 ^ (b - 1) :=
      mul_le_mul_of_nonneg_left hp (by norm_num)
    exact min_le_min h2 le_rfl
  · unfold nextDelayNoJitter
    exact min_eq_right hcap

/-- Witness for C7 at `jitter = 1/2`, attempts `6 ≤ 7`
(`1000 * 2^5 = 32000 ≥ 30000`, so the cap premise is realizable). -/
theorem C7_witness :
    ((0 : ℚ) ≤ 1 / 2 ∧ (1 / 2 : ℚ) < 1000 ∧ 1 ≤ 6 ∧ 6 ≤ 7) ∧
    ((∀ baseDelay maxDelay : ℚ,
        nextDelay baseDelay maxDelay (1 / 2) 6
          = min (baseDelay * 2 ^ (6 - 1) + 1 / 2) maxDelay) ∧
     nextDelayNoJitter 1000 30000 6 ≤ nextDelayNoJitter 1000 30000 7 ∧
     ((30000 : ℚ) ≤ 1000 * 2 ^ (6 - 1) → nextDelayNoJitter 1000 30000 6 = 30000)) :=
  ⟨by norm_num,
   C7_backoff (1 / 2) 6 7 (by norm_num) (by norm_num) (by norm_num) (by norm_num)⟩

/-- C8: `send` throws the synchronous `'WebSocket is not connected'`
error, with no transport interaction, whenever the state is not
exactly `connected`; on a reachable `connected` state (where the
invariant supplies a live socket) a string payload reaches the
transport unchanged through `wireFormat`, while every non-string
payload is serialized to its JSON text form first. -/
theorem C8_send_guard (s : ClientState) (d : OutMsg) (h : Inv s) :
    (s.state ≠ ConnState.connected →
        send s d = Except.error "WebSocket is not connected") ∧
    (s.state = ConnState.connected → send s d = Except.ok [Output.wsSend d]) ∧
    (∀ str, wireFormat (OutMsg.text str) = str) ∧
    (∀ m : OutMsg, (∀ str, m ≠ OutMsg.text str) →
        wireFormat m = renderObj (OutMsg.toJsonObj m)) := by
  obtain ⟨h1, h2, h3⟩ := h
  refine ⟨?_, ?_, fun str => rfl, ?_⟩
  · intro hne
    simp [send, hne]
  · intro hc
    have hw := h3 hc
    simp [send, hw, hc]
  · intro m hm
    cases m with
    | text str => exact absurd rfl (hm str)
    | marketSub assets => rfl
    | assetOp operation assets => rfl
    | userSub auth markets => rfl

/-- A concrete reachable connected state, used by witnesses. -/
def connectedState : ClientState :=
  { initState with state := ConnState.connected, ws := some WsPhase.opened,
                   heartbeatTimer := true }

/-- Witness for C8 at a concrete connected state and a string payload. -/
theorem C8_witness :
    Inv connectedState ∧
    ((connectedState.state ≠ ConnState.connected →
        send connectedState (OutMsg.text "hello")
          = Except.error "WebSocket is not connected") ∧
     (connectedState.state = ConnState.connected →
        send connectedState (OutMsg.text "hello")
          = Except.ok [Output.wsSend (OutMsg.text "hello")]) ∧
     (∀ str, wireFormat (OutMsg.text str) = str) ∧
     (∀ m : OutMsg, (∀ str, m ≠ OutMsg.text str) →
        wireFormat m = renderObj (OutMsg.toJsonObj m))) :=
  ⟨by unfold Inv; decide, C8_send_guard connectedState (OutMsg.text "hello") (by unfold Inv; decide)⟩


/-- C9: a `subscribe` or `unsubscribe` call whose argument list is
malformed (not an array, or containing a non-string or
blank-after-trim string) throws synchronously and leaves the
subscription ledger — indeed the whole instance state — untouched,
producing no outbound message, on both CLOB channels. -/
theorem C9_validation (cfg : Config) (kind : ChannelKind) (s : ClientState) (arg : JsArg)
    (h : malformedArg arg = true) :
    (subscribeCall cfg kind s arg).state = s ∧
    (subscribeCall cfg kind s arg).out = [] ∧
    (subscribeCall cfg kind s arg).thrown.isSome = true ∧
    (unsubscribeCall cfg kind s arg).state = s ∧
    (unsubscribeCall cfg kind s arg).out = [] ∧
    (unsubscribeCall cfg kind s arg).thrown.isSome = true := by
  rcases arg with _ | items
  · cases kind <;> simp [subscribeCall, unsubscribeCall]
  · have hv : items.all validItem = false := by
      simpa [malformedArg] using h
    cases kind <;> simp [subscribeCall, unsubscribeCall, hv]

/-- Witness for C9: a list containing a well-formed id and a blank id
throws and mutates nothing. -/
theorem C9_witness :
    malformedArg (JsArg.array [JsItem.str "asset1", JsItem.str " "]) = true ∧
    ((subscribeCall DEFAULTS ChannelKind.market initState
        (JsArg.array [JsItem.str "asset1", JsItem.str " "])).state = initState ∧
     (subscribeCall DEFAULTS ChannelKind.market initState
        (JsArg.array [JsItem.str "asset1", JsItem.str " "])).out = [] ∧
     (subscribeCall DEFAULTS ChannelKind.market initState
        (JsArg.array [JsItem.str "asset1", JsItem.str " "])).thrown.isSome = true ∧
     (unsubscribeCall DEFAULTS ChannelKind.market initState
        (JsArg.array [JsItem.str "asset1", JsItem.str " "])).state = initState ∧
     (unsubscribeCall DEFAULTS ChannelKind.market initState
        (JsArg.array [JsItem.str "asset1", JsItem.str " "])).out = [] ∧
     (unsubscribeCall DEFAULTS ChannelKind.market initState
        (JsArg.array [JsItem.str "asset1", JsItem.str " "])).thrown.isSome = true) :=
  ⟨by decide,
   C9_validation DEFAULTS ChannelKind.market initState
     (JsArg.array [JsItem.str "asset1", JsItem.str " "]) (by decide)⟩

/-- C1: starting from a connected market client with an unintentional
close ahead (intentional-close flag clear, auto-reconnect enabled,
retries remaining), the close / retry / open cycle retransmits every
ledger key exactly once in the single replay message, retransmits no
key absent from the ledger, and leaves the ledger itself untouched
(the ledger survives a transient disconnect). -/
theorem C1_replay_after_reconnect (cfg : Config) (s : ClientState) (code : Nat)
    (reason : String)
    (hst : s.state = ConnState.connected) (hws : s.ws = some WsPhase.opened)
    (hic : s.isIntentionalClose = false) (har : cfg.autoReconnect = true)
    (hmax : maxAttemptsReached cfg s.reconnectAttempts = false)
    (hnd : s.ledger.Nodup) :
    ((run cfg ChannelKind.market s
        [Ev.wsClose code reason, Ev.reconnectFire, Ev.wsOpen]).1.state
      = ConnState.connected) ∧
    ((run cfg ChannelKind.market s
        [Ev.wsClose code reason, Ev.reconnectFire, Ev.wsOpen]).1.ledger = s.ledger) ∧
    (∀ k ∈ s.ledger,
        (sentKeys (run cfg ChannelKind.market s
            [Ev.wsClose code reason, Ev.reconnectFire, Ev.wsOpen]).2).count k = 1) ∧
    (∀ k, k ∉ s.ledger →
        (sentKeys (run cfg ChannelKind.market s
            [Ev.wsClose code reason, Ev.reconnectFire, Ev.wsOpen]).2).count k = 0) := by
  by_cases hled : s.ledger = []
  · refine ⟨?_, ?_, ?_, ?_⟩ <;>
      simp [run, step, onClose, onCloseBody, scheduleReconnect, setState, onReconnectTimer,
        createConnection, onOpen, onOpenBody, afterConnected, onConnectedResult, send, sentKeys, msgKeys,
        hws, hst, hic, har, hmax, hled]
  · have hlen : 0 < s.ledger.length := List.length_pos.mpr hled
    have hsent : sentKeys (run cfg ChannelKind.market s
        [Ev.wsClose code reason, Ev.reconnectFire, Ev.wsOpen]).2 = s.ledger := by
      simp [run, step, onClose, onCloseBody, scheduleReconnect, setState, onReconnectTimer,
        createConnection, onOpen, onOpenBody, afterConnected, onConnectedResult, send, sentKeys, msgKeys,
        hws, hst, hic, har, hmax, hlen]
    refine ⟨?_, ?_, ?_, ?_⟩
    · simp [run, step, onClose, onCloseBody, scheduleReconnect, setState, onReconnectTimer,
        createConnection, onOpen, onOpenBody, afterConnected, onConnectedResult, send, hws, hst, hic, har, hmax]
    · simp [run, step, onClose, onCloseBody, scheduleReconnect, setState, onReconnectTimer,
        createConnection, onOpen, onOpenBody, afterConnected, onConnectedResult, send, hws, hst, hic, har, hmax]
    · intro k hk
      rw [hsent]
      exact List.count_eq_one_of_mem hnd hk
    · intro k hk
      rw [hsent]
      exact List.count_eq_zero_of_not_mem hk

/-- Witness for C1 at a concrete connected market client holding two
subscriptions. -/
theorem C1_witness :
    (({ connectedState with ledger := ["asset1", "asset2"] } : ClientState).state
        = ConnState.connected ∧
     ({ connectedState with ledger := ["asset1", "asset2"] } : ClientState).ws
        = some WsPhase.opened ∧
     ({ connectedState with ledger := ["asset1", "asset2"] } : ClientState).isIntentionalClose
        = false ∧
     DEFAULTS.autoReconnect = true ∧
     maxAttemptsReached DEFAULTS
       ({ connectedState with ledger := ["asset1", "asset2"] } : ClientState).reconnectAttempts
        = false ∧
     ({ connectedState with ledger := ["asset1", "asset2"] } : ClientState).ledger.Nodup) ∧
    (((run DEFAULTS ChannelKind.market
          { connectedState with ledger := ["asset1", "asset2"] }
          [Ev.wsClose 1006 "lost", Ev.reconnectFire, Ev.wsOpen]).1.state
        = ConnState.connected) ∧
     ((run DEFAULTS ChannelKind.market
          { connectedState with ledger := ["asset1", "asset2"] }
          [Ev.wsClose 1006 "lost", Ev.reconnectFire, Ev.wsOpen]).1.ledger
        = ({ connectedState with ledger := ["asset1", "asset2"] } : ClientState).ledger) ∧
     (∀ k ∈ ({ connectedState with ledger := ["asset1", "asset2"] } : ClientState).ledger,
        (sentKeys (run DEFAULTS ChannelKind.market
            { connectedState with ledger := ["asset1", "asset2"] }
            [Ev.wsClose 1006 "lost", Ev.reconnectFire, Ev.wsOpen]).2).count k = 1) ∧
     (∀ k, k ∉ ({ connectedState with ledger := ["asset1", "asset2"] } : ClientState).ledger →
        (sentKeys (run DEFAULTS ChannelKind.market
            { connectedState with ledger := ["asset1", "asset2"] }
            [Ev.wsClose 1006 "lost", Ev.reconnectFire, Ev.wsOpen]).2).count k = 0)) :=
  ⟨⟨rfl, rfl, rfl, rfl, rfl, by decide⟩,
   C1_replay_after_reconnect DEFAULTS
     { connectedState with ledger := ["asset1", "asset2"] } 1006 "lost"
     rfl rfl rfl rfl rfl (by decide)⟩

/-- C2 (counterexample): the concrete trace connect / open /
unintentional close / retry-delay-elapsed drives `connectionState`
from `reconnecting` to `connecting`, a transition along no edge of the
§4.4 diagram. -/
theorem C2_counterexample :
    ((run DEFAULTS ChannelKind.market initState
        [Ev.connect, Ev.wsOpen, Ev.wsClose 1006 "lost"]).1.state
      = ConnState.reconnecting) ∧
    ((run DEFAULTS ChannelKind.market initState
        [Ev.connect, Ev.wsOpen, Ev.wsClose 1006 "lost", Ev.reconnectFire]).1.state
      = ConnState.connecting) ∧
    (ConnState.reconnecting, ConnState.connecting) ∉ specEdges := by
  decide

/-- C2 (amended): along every event sequence from the initial state —
transport callbacks of abandoned sockets and firings of leaked timers
included — each step either leaves `connectionState` unchanged and
publishes no `stateChange` event, or moves it along one edge of
`fullEdges` — the §4.4 edges plus `reconnecting → connecting`,
`connecting → reconnecting`, `connected → connecting` and
`disconnected → connected` (an abandoned socket's `onopen` firing
after a disconnect) — and publishes exactly one `stateChange` event
carrying the new and the previous state. -/
theorem C2_transitions (cfg : Config) (kind : ChannelKind) (evs : List Ev) (e : Ev) :
    stateChanges (step cfg kind (run cfg kind initState evs).1 e).2 =
      (if (step cfg kind (run cfg kind initState evs).1 e).1.state
          = (run cfg kind initState evs).1.state then []
       else [((step cfg kind (run cfg kind initState evs).1 e).1.state,
              (run cfg kind initState evs).1.state)]) ∧
    ((step cfg kind (run cfg kind initState evs).1 e).1.state
        ≠ (run cfg kind initState evs).1.state →
      ((run cfg kind initState evs).1.state,
       (step cfg kind (run cfg kind initState evs).1 e).1.state) ∈ fullEdges) :=
  edgesOk_step cfg kind (run cfg kind initState evs).1 e
    (stateK_run cfg kind initState evs (stateK_initState cfg))

/-- C3 (counterexample): with the default configuration
(`autoReconnect = true`), after a connection timeout and the resulting
forced transport close the state is `reconnecting`, not
`disconnected` as the claim states. -/
theorem C3_counterexample :
    (run DEFAULTS ChannelKind.market initState
        [Ev.connect, Ev.connTimeout, Ev.wsClose 1006 ""]).1.state
      ≠ ConnState.disconnected ∧
    (run DEFAULTS ChannelKind.market initState
        [Ev.connect, Ev.connTimeout, Ev.wsClose 1006 ""]).1.state
      = ConnState.reconnecting := by
  decide

/-- C3 (amended): when the connection timeout fires on a pending
`connect()`, exactly one `error` event carrying the timeout message is
published, the transport is forced closed and the `connect()` promise
rejects with the same timeout error; once the forced close is
delivered, the state settles to `disconnected` only when auto-reconnect
is disabled (or no retries remain) — otherwise it transitions to
`reconnecting`. -/
theorem C3_timeout (cfg : Config) (kind : ChannelKind) (code : Nat) (reason : String) :
    ((step cfg kind (step cfg kind initState Ev.connect).1 Ev.connTimeout).2 =
      [Output.errorEv
         ("Connection timeout after " ++ toString cfg.connectionTimeout ++ "ms"),
       Output.wsCloseCall,
       Output.rejectConnect
         ("Connection timeout after " ++ toString cfg.connectionTimeout ++ "ms")]) ∧
    ((step cfg kind (step cfg kind initState Ev.connect).1 Ev.connTimeout).2.countP
        isErrorOut = 1) ∧
    ((step cfg kind
        (step cfg kind (step cfg kind initState Ev.connect).1 Ev.connTimeout).1
        (Ev.wsClose code reason)).1.state =
      (if cfg.autoReconnect = true ∧ maxAttemptsReached cfg 0 = false
       then ConnState.reconnecting else ConnState.disconnected)) := by
  refine ⟨?_, ?_, ?_⟩
  · simp [step, connect, createConnection, setState, initState, onConnectionTimeout]
  · simp [step, connect, createConnection, setState, initState, onConnectionTimeout,
      isErrorOut]
  · by_cases hA : cfg.autoReconnect = true
    · by_cases hM : maxAttemptsReached cfg 0 = true
      · simp [step, connect, createConnection, setState, initState,
          onConnectionTimeout, onClose, onCloseBody, scheduleReconnect, hA, hM]
      · simp [step, connect, createConnection, setState, initState,
          onConnectionTimeout, onClose, onCloseBody, scheduleReconnect, hA, hM]
    · simp [step, connect, createConnection, setState, initState,
        onConnectionTimeout, onClose, onCloseBody, scheduleReconnect, hA]

/-- C4: when the transport opens on a connecting market client with a
non-empty ledger, the step records the `connected` state, publishes
the `stateChange`, then sends exactly one replay message enumerating
the full ledger, and only then publishes the `connected` event — the
replay is the only outbound traffic of the step. -/
theorem C4_replay_before_connected_event (cfg : Config) (s : ClientState)
    (hws : s.ws = some WsPhase.connecting) (hst : s.state = ConnState.connecting)
    (hne : s.ledger ≠ []) :
    (step cfg ChannelKind.market s Ev.wsOpen).1.state = ConnState.connected ∧
    (step cfg ChannelKind.market s Ev.wsOpen).2 =
      [Output.stateChange ConnState.connected ConnState.connecting,
       Output.wsSend (OutMsg.marketSub s.ledger),
       Output.connectedEv, Output.resolveConnect] ∧
    (step cfg ChannelKind.market s Ev.wsOpen).2.countP isSendOut = 1 := by
  have hstep : step cfg ChannelKind.market s Ev.wsOpen
      = onOpen cfg ChannelKind.market s := by
    simp [step, hws]
  have hlen : 0 < s.ledger.length := List.length_pos.mpr hne
  have houts : (onOpen cfg ChannelKind.market s).2 =
      [Output.stateChange ConnState.connected ConnState.connecting,
       Output.wsSend (OutMsg.marketSub s.ledger),
       Output.connectedEv, Output.resolveConnect] := by
    simp [onOpen, onOpenBody, afterConnected, onConnectedResult, send, setState,
      hst, hlen]
  rw [hstep]
  refine ⟨onOpenBody_state cfg ChannelKind.market _, houts, ?_⟩
  rw [houts]
  rfl

/-- A concrete connecting market client with two pending ledger
entries, used by witnesses. -/
def connectingState : ClientState :=
  { initState with state := ConnState.connecting, ws := some WsPhase.connecting,
                   connectionTimer := true, ledger := ["asset1", "asset2"] }

/-- Witness for C4 at the concrete connecting state. -/
theorem C4_witness :
    (connectingState.ws = some WsPhase.connecting ∧
     connectingState.state = ConnState.connecting ∧
     connectingState.ledger ≠ []) ∧
    ((step DEFAULTS ChannelKind.market connectingState Ev.wsOpen).1.state
        = ConnState.connected ∧
     (step DEFAULTS ChannelKind.market connectingState Ev.wsOpen).2 =
       [Output.stateChange ConnState.connected ConnState.connecting,
        Output.wsSend (OutMsg.marketSub connectingState.ledger),
        Output.connectedEv, Output.resolveConnect] ∧
     (step DEFAULTS ChannelKind.market connectingState Ev.wsOpen).2.countP
        isSendOut = 1) :=
  ⟨⟨rfl, rfl, by decide⟩,
   C4_replay_before_connected_event DEFAULTS connectingState rfl rfl (by decide)⟩

/-- C5 (code bug): the claim matches the spec's §5 cancellation policy
— every timer callback must check the intentional-close flag or a
generation counter before acting — but `scheduleReconnect`
(base-client.ts:227) assigns `this.reconnectTimer = setTimeout(...)`
without clearing a still-pending previous reconnect timer and without
any guard in the callback.  Concretely: after connect / open / network
close (first retry timer armed) / caller `connect()` during the retry
wait / second handshake failure (a second `scheduleReconnect`
overwrites the handle of the still-pending first timer), `disconnect()`
can only cancel the handle it still holds; the leaked timer survives
it and re-runs `createConnection` — a reconnect attempt with a fresh
transport and a `disconnected → connecting` transition, with no new
`connect()` call. -/
theorem C5_leaked_timer_reconnects_after_disconnect :
    ((run DEFAULTS ChannelKind.market initState
        [Ev.connect, Ev.wsOpen, Ev.wsClose 1006 "x", Ev.connect,
         Ev.wsClose 1006 "y", Ev.disconnect]).1.isIntentionalClose = true) ∧
    ((run DEFAULTS ChannelKind.market initState
        [Ev.connect, Ev.wsOpen, Ev.wsClose 1006 "x", Ev.connect,
         Ev.wsClose 1006 "y", Ev.disconnect]).1.state = ConnState.disconnected) ∧
    ((run DEFAULTS ChannelKind.market initState
        [Ev.connect, Ev.wsOpen, Ev.wsClose 1006 "x", Ev.connect,
         Ev.wsClose 1006 "y", Ev.disconnect]).1.reconnectTimer = false) ∧
    ((run DEFAULTS ChannelKind.market initState
        [Ev.connect, Ev.wsOpen, Ev.wsClose 1006 "x", Ev.connect,
         Ev.wsClose 1006 "y", Ev.disconnect]).1.leakedReconnectTimers = 1) ∧
    (Output.wsNew ∈ (step DEFAULTS ChannelKind.market
        (run DEFAULTS ChannelKind.market initState
          [Ev.connect, Ev.wsOpen, Ev.wsClose 1006 "x", Ev.connect,
           Ev.wsClose 1006 "y", Ev.disconnect]).1 Ev.leakedReconnectFire).2) ∧
    ((step DEFAULTS ChannelKind.market
        (run DEFAULTS ChannelKind.market initState
          [Ev.connect, Ev.wsOpen, Ev.wsClose 1006 "x", Ev.connect,
           Ev.wsClose 1006 "y", Ev.disconnect]).1 Ev.leakedReconnectFire).1.state
      = ConnState.connecting) := by
  decide

/-- C10 (counterexample): on the user channel, after a subscribe /
connect / open / `disconnect()` cycle, a fresh `connect()` still sends
a subscription message on open — the authenticated full-state
subscription enumerating zero markets — contradicting the claim that
no replay message is sent. -/
theorem C10_counterexample :
    Output.wsSend (OutMsg.userSub DEFAULTS.auth [])
      ∈ (run DEFAULTS ChannelKind.user initState
          [Ev.subscribe (JsArg.array [JsItem.str "m1"]), Ev.connect, Ev.wsOpen,
           Ev.disconnect, Ev.connect, Ev.wsOpen]).2 := by
  decide

/-- C10 (amended): `disconnect()` erases the subscription ledger and
the registered per-event callbacks and resets the reconnect attempt
counter to 0, so a subsequent `connect()` starts from an empty
subscription set; on open, the market channel then sends no message at
all, while the user channel still sends its authenticated full-state
subscription enumerating zero markets. -/
theorem C10_cleanup_on_disconnect (cfg : Config) (s : ClientState) :
    (disconnect s).1.ledger = [] ∧
    (disconnect s).1.eventCallbacks = [] ∧
    (disconnect s).1.reconnectAttempts = 0 ∧
    (run cfg ChannelKind.market (disconnect s).1 [Ev.connect, Ev.wsOpen]).2.countP
        isSendOut = 0 ∧
    (run cfg ChannelKind.user (disconnect s).1 [Ev.connect, Ev.wsOpen]).2 =
      [Output.stateChange ConnState.connecting ConnState.disconnected, Output.wsNew,
       Output.stateChange ConnState.connected ConnState.connecting,
       Output.wsSend (OutMsg.userSub cfg.auth []),
       Output.connectedEv, Output.resolveConnect] := by
  obtain ⟨hw, hst, hct, hrt, hht, hic, hled, hcb, hra⟩ := disconnect_fields s
  refine ⟨hled, hcb, hra, ?_, ?_⟩ <;>
    simp [run, step, connect, createConnection, setState, onOpen, onOpenBody,
      afterConnected, onConnectedResult, send, isSendOut, hw, hst, hled]

end PolyWS
